import Mathlib

/-!
Shallow embedding of the crosstalk track-enrichment core:
the batch enrichment pipeline (src/routes/api/tracks/analyze-playlist.ts),
the single-track route (src/routes/api/tracks/analyze.ts),
the Gemini API-key rotation wrapper (src/lib/gemini.ts),
the orbit assignment (src/components/NucleusVisualization.tsx `tracksByOrbit`),
and the chat-context aggregation (src/routes/api/chat/message.ts).

External calls (Spotify metadata, Genius lyrics, Gemini analysis, DB insert
success/failure) are modelled as oracle fields carried by each candidate,
so every route handler becomes a pure function of its inputs and oracles.
JavaScript truthiness of strings and numbers is modelled explicitly where
the source relies on it.
-/

namespace Crosstalk

/-- JS truthiness of an optional string: `null`/`undefined` and `""` are falsy. -/
def jsTruthyStr : Option String → Bool
  | none => false
  | some s => s ≠ ""

/-- `x || null` on an optional string: empty string collapses to null. -/
def jsOrNullStr : Option String → Option String
  | none => none
  | some s => if s = "" then none else some s

/-- `x || null` on an optional integer: `0` collapses to null. -/
def jsOrNullInt : Option Int → Option Int
  | none => none
  | some n => if n = 0 then none else some n

/-- A persisted track row (src/types/track.ts, table `tracks` in
src/lib/database.ts).  `emotion` is a `TEXT` column at the persistence layer,
so it is modelled as a plain string; the declared TypeScript `Emotion` union
corresponds to membership in `allowedEmotions`. -/
structure Track where
  id : Nat
  spotify_id : String
  spotify_url : String
  title : String
  artist : Option String
  lyrics : Option String
  genius_url : Option String
  has_audio_preview : Bool
  emotion : String
  valence : Option Rat
  energy : Option Rat
  tempo : Option Int
  genre : Option String
  mood_description : Option String
  dominant_instruments : Option String
  vocal_characteristics : Option String
  duration : Option Int
  thumbnail_url : Option String
  preview_url : Option String
  added_at : Nat
  deriving DecidableEq, Repr

/-- The 8 canonical emotion labels, exactly the list in
src/routes/api/chat/message.ts line 51 (and the `Emotion` union type). -/
def allowedEmotions : List String :=
  ["joy", "sadness", "anger", "fear", "love", "surprise", "calm", "nostalgia"]

/-- The parsed JSON object produced by `JSON.parse` on a Gemini response
(src/lib/gemini.ts `analyzeLyrics`).  At runtime the cast
`as AnalysisResult` performs no checks, so `emotion` is an arbitrary string. -/
structure RawAnalysis where
  emotion : String
  valence : Rat
  energy : Rat
  genre : String
  mood_description : String
  vocal_characteristics : String
  tempo : Option Int
  dominant_instruments : Option String
  deriving DecidableEq, Repr

/-- Persistent state: the `tracks` table plus the id/timestamp counters that
the database assigns on insert (`id INTEGER PRIMARY KEY AUTOINCREMENT`,
`added_at DATETIME DEFAULT CURRENT_TIMESTAMP`). -/
structure DB where
  tracks : List Track
  nextId : Nat
  now : Nat
  deriving DecidableEq, Repr

/-- `trackQueries.getBySpotifyId` (src/lib/database.ts):
`SELECT * FROM tracks WHERE spotify_id = ?`. -/
def getBySpotifyId (st : DB) (sid : String) : Option Track :=
  st.tracks.find? (fun t => t.spotify_id = sid)

/-- Result of the route-level `searchGeniusLyrics` call as seen from the
playlist handler: either the call threw (handled by the inner catch) or it
returned a `{lyrics, url}` pair, each possibly null. -/
inductive LyricsOutcome
  | threw
  | ok (lyrics : Option String) (url : Option String)
  deriving DecidableEq, Repr

/-- One playlist candidate (a `SpotifyMetadata` item) together with the
oracle outcomes of the external calls made while processing it. -/
structure Candidate where
  spotifyId : String
  name : String
  artists : List String
  externalUrl : Option String
  preview_url : Option String
  duration_ms : Int
  albumImage : Option String
  lyricsOutcome : LyricsOutcome
  analysisResult : Except String RawAnalysis
  insertResult : Except String Unit
  deriving Repr

/-- Environment of the playlist handler: whether a Genius token is configured. -/
structure PipelineEnv where
  geniusToken : Bool
  deriving DecidableEq, Repr

/-- `metadata.artists[0]?.name || 'Unknown Artist'`
(src/routes/api/tracks/analyze-playlist.ts line 66). -/
def artistNameOf (c : Candidate) : String :=
  match c.artists.head? with
  | some a => if a = "" then "Unknown Artist" else a
  | none => "Unknown Artist"

/-- `metadata.external_urls?.spotify || dollar-template fallback URL`
(src/routes/api/tracks/analyze-playlist.ts line 68). -/
def trackUrlOf (c : Candidate) : String :=
  match c.externalUrl with
  | some u =>
      if u = "" then "https://open.spotify.com/track/" ++ c.spotifyId else u
  | none => "https://open.spotify.com/track/" ++ c.spotifyId

/-- The row assembled by `trackQueries.insert.run(...)` in the playlist
handler (lines 136-155), then re-read by `getById(lastInsertRowid)`. -/
def assembleTrack (st : DB) (c : Candidate) (a : RawAnalysis)
    (lyr : String) (gurl : Option String) : Track :=
  { id := st.nextId
    spotify_id := c.spotifyId
    spotify_url := trackUrlOf c
    title := c.name
    artist := some (artistNameOf c)
    lyrics := some lyr
    genius_url := gurl
    has_audio_preview := jsTruthyStr c.preview_url
    emotion := a.emotion
    valence := some a.valence
    energy := some a.energy
    tempo := jsOrNullInt a.tempo
    genre := some a.genre
    mood_description := some a.mood_description
    dominant_instruments := jsOrNullStr a.dominant_instruments
    vocal_characteristics := some a.vocal_characteristics
    duration := some c.duration_ms
    thumbnail_url := jsOrNullStr c.albumImage
    preview_url := jsOrNullStr c.preview_url
    added_at := st.now }

/-- Outcome of processing one candidate, as recorded into the three result
buckets of the playlist handler. -/
inductive CandOutcome
  | success (t : Track)
  | failed (track artist reason : String)
  | skipped (track artist reason : String)
  deriving DecidableEq, Repr

/-- Whether an outcome landed in the `skipped` bucket. -/
def CandOutcome.isSkipped : CandOutcome → Bool
  | .skipped _ _ _ => true
  | _ => false

/-- Whether an outcome landed in the `success` bucket. -/
def CandOutcome.isSuccess : CandOutcome → Bool
  | .success _ => true
  | _ => false

/-- The body of one loop iteration of the playlist handler
(src/routes/api/tracks/analyze-playlist.ts lines 72-168): duplicate check,
lyrics lookup, Gemini analysis, insert; any exception thrown after the
duplicate check is caught and recorded as a `failed` entry carrying the
error message. -/
def processOne (env : PipelineEnv) (st : DB) (c : Candidate) :
    CandOutcome × DB :=
  match getBySpotifyId st c.spotifyId with
  | some _ => (.skipped c.name (artistNameOf c) "Already in collection", st)
  | none =>
    let lyricsStep : Except Unit (Option String × Option String) :=
      if env.geniusToken then
        match c.lyricsOutcome with
        | .threw => .error ()
        | .ok l u => .ok (l, u)
      else .ok (none, none)
    match lyricsStep with
    | .error _ => (.failed c.name (artistNameOf c) "No lyrics found", st)
    | .ok (lyr?, gurl) =>
      match lyr? with
      | none => (.failed c.name (artistNameOf c) "No lyrics found", st)
      | some lyr =>
        if lyr = "" then
          (.failed c.name (artistNameOf c) "No lyrics found", st)
        else
          match c.analysisResult with
          | .error m => (.failed c.name (artistNameOf c) m, st)
          | .ok a =>
            match c.insertResult with
            | .error m => (.failed c.name (artistNameOf c) m, st)
            | .ok _ =>
              let t := assembleTrack st c a lyr gurl
              (.success t,
               { tracks := st.tracks ++ [t]
                 nextId := st.nextId + 1
                 now := st.now + 1 })

/-- The three result buckets plus the number of candidates actually
attempted (loop iterations that got past the target-stop check). -/
structure BatchAcc where
  success : List Track
  failed : List (String × String × String)
  skipped : List (String × String × String)
  attempted : Nat
  deriving DecidableEq, Repr

/-- The empty accumulator the handler starts with. -/
def emptyAcc : BatchAcc := { success := [], failed := [], skipped := [], attempted := 0 }

/-- Record one candidate outcome into its bucket (the `results.*.push` calls). -/
def pushOutcome (acc : BatchAcc) : CandOutcome → BatchAcc
  | .success t =>
      { acc with success := acc.success ++ [t], attempted := acc.attempted + 1 }
  | .failed n a r =>
      { acc with failed := acc.failed ++ [(n, a, r)], attempted := acc.attempted + 1 }
  | .skipped n a r =>
      { acc with skipped := acc.skipped ++ [(n, a, r)], attempted := acc.attempted + 1 }

/-- The candidate loop of the playlist handler (lines 56-169): before each
candidate, stop if the success bucket has reached the target; otherwise
process the candidate and record its outcome. -/
def runBatch (env : PipelineEnv) (target : Nat) :
    DB → BatchAcc → List Candidate → BatchAcc × DB
  | st, acc, [] => (acc, st)
  | st, acc, c :: cs =>
    if target ≤ acc.success.length then (acc, st)
    else
      let r := processOne env st c
      runBatch env target r.2 (pushOutcome acc r.1) cs

/-- `const TARGET_SUCCESS = 25` (line 38). -/
def TARGET_SUCCESS : Nat := 25

/-- The JSON body returned by the playlist handler (lines 179-190). -/
structure PlaylistResponse where
  totalProcessed : Nat
  successCount : Nat
  failedCount : Nat
  skippedCount : Nat
  tracks : List Track
  failed : List (String × String × String)
  skipped : List (String × String × String)
  deriving DecidableEq, Repr

/-- Response construction of the playlist handler: note that the
`totalProcessed` field is `playlistTracks.length` (line 181), while the
buckets come from the loop run. -/
def analyzePlaylistResponse (env : PipelineEnv) (st : DB)
    (playlistTracks : List Candidate) : PlaylistResponse × DB :=
  let r := runBatch env TARGET_SUCCESS st emptyAcc playlistTracks
  ({ totalProcessed := playlistTracks.length
     successCount := r.1.success.length
     failedCount := r.1.failed.length
     skippedCount := r.1.skipped.length
     tracks := r.1.success
     failed := r.1.failed
     skipped := r.1.skipped }, r.2)

/-! ### Single-track route (src/routes/api/tracks/analyze.ts) -/

/-- Metadata returned by `fetchSpotifyMetadata` for the single-track route. -/
structure SingleMeta where
  name : String
  artists : List String
  preview_url : Option String
  duration_ms : Int
  albumImage : Option String
  deriving DecidableEq, Repr

/-- One request to the single-track route, with the oracle outcomes of its
external calls.  `trackId` is the result of `extractSpotifyTrackId`;
`audioResult` combines `downloadPreviewMp3` + `analyzeAudioFile`;
`lyricsResult` is the `searchGeniusLyrics` return value (never throws:
the client catches internally and returns nulls). -/
structure SingleReq where
  spotifyUrl : String
  trackId : Option String
  metadataResult : Except String SingleMeta
  audioResult : Except String RawAnalysis
  embedResult : Except String RawAnalysis
  lyricsResult : Option String × Option String
  insertResult : Except String Unit
  deriving Repr

/-- Responses of the single-track route handler. -/
inductive SingleResponse
  | invalidUrl
  | conflict (msg : String) (existing : Track)
  | created (t : Track)
  | serverError (msg : String)
  deriving DecidableEq, Repr

/-- The row assembled by the single-track insert (analyze.ts lines 76-94);
this schema variant has no `preview_url` column. -/
def assembleSingleTrack (st : DB) (req : SingleReq) (tid : String)
    (md : SingleMeta) (a : RawAnalysis) (lyr gurl : Option String)
    (hasPreview : Bool) : Track :=
  { id := st.nextId
    spotify_id := tid
    spotify_url := req.spotifyUrl
    title := md.name
    artist := jsOrNullStr md.artists.head?
    lyrics := lyr
    genius_url := gurl
    has_audio_preview := hasPreview
    emotion := a.emotion
    valence := some a.valence
    energy := some a.energy
    tempo := a.tempo
    genre := some a.genre
    mood_description := some a.mood_description
    dominant_instruments := a.dominant_instruments
    vocal_characteristics := some a.vocal_characteristics
    duration := some md.duration_ms
    thumbnail_url := jsOrNullStr md.albumImage
    preview_url := none
    added_at := st.now }

/-- The single-track route handler (analyze.ts lines 27-101): URL parse,
duplicate check (409 with the existing row), metadata fetch, audio analysis
with embed fallback, lyrics lookup (a null result is tolerated), insert,
201 with the re-read row; any exception becomes a 500 with its message. -/
def analyzeSingle (env : PipelineEnv) (st : DB) (req : SingleReq) :
    SingleResponse × DB :=
  match req.trackId with
  | none => (.invalidUrl, st)
  | some tid =>
    match getBySpotifyId st tid with
    | some existing => (.conflict "Track already exists" existing, st)
    | none =>
      match req.metadataResult with
      | .error m => (.serverError m, st)
      | .ok md =>
        let step : Except String RawAnalysis × Bool :=
          if jsTruthyStr md.preview_url then
            match req.audioResult with
            | .ok a => (.ok a, true)
            | .error _ => (req.embedResult, false)
          else (req.embedResult, false)
        match step.1 with
        | .error m => (.serverError m, st)
        | .ok a =>
          let lyrPair := if env.geniusToken then req.lyricsResult else (none, none)
          match req.insertResult with
          | .error m => (.serverError m, st)
          | .ok _ =>
            let t := assembleSingleTrack st req tid md a lyrPair.1 lyrPair.2 step.2
            (.created t,
             { tracks := st.tracks ++ [t]
               nextId := st.nextId + 1
               now := st.now + 1 })

/-! ### Gemini key rotation (src/lib/gemini.ts `withApiKeyRotation`) -/

/-- The aggregate error thrown when every key fails (gemini.ts line 40):
the template interpolates the pool size and `lastError?.message`, which
prints `undefined` when no error was recorded. -/
def exhaustMsg (total : Nat) (last : Option String) : String :=
  "All " ++ toString total ++ " Gemini API keys failed. Last error: " ++
    (match last with | some m => m | none => "undefined")

/-- The rotation loop (gemini.ts lines 21-40), instrumented with the number
of operations attempted and the list of keys tried, in order. -/
def rotateGo (op : String → Except String α) (total : Nat) :
    List String → Option String → Nat → List String →
    Except String α × Nat × List String
  | [], last, att, tried => (.error (exhaustMsg total last), att, tried)
  | k :: ks, _, att, tried =>
    match op k with
    | .ok v => (.ok v, att + 1, tried ++ [k])
    | .error m => rotateGo op total ks (some m) (att + 1) (tried ++ [k])

/-- `withApiKeyRotation(apiKeys, operation)`: try each key in list order
starting at index 0; return the first success; if all fail, throw the
aggregate error naming the pool size and the last error message. -/
def withApiKeyRotation (keys : List String) (op : String → Except String α) :
    Except String α × Nat × List String :=
  rotateGo op keys.length keys none 0 []

/-- The JSON-extraction tail of `analyzeLyrics` (gemini.ts lines 200-208):
`extracted` stands for the outcome of the regex match plus `JSON.parse`
on the response text.  A parsed object is returned as-is — the cast
`as AnalysisResult` validates nothing. -/
def analyzeLyricsResult (extracted : Option RawAnalysis) :
    Except String RawAnalysis :=
  match extracted with
  | none => .error "Failed to parse Gemini response as JSON"
  | some a => .ok a

/-! ### Orbit assignment (NucleusVisualization.tsx lines 219-230) -/

/-- `Math.ceil(a / b)` on naturals, for `b > 0`. -/
def mathCeilDiv (a b : Nat) : Nat := (a + b - 1) / b

/-- `Math.min(Math.floor(index / Math.max(tracksPerOrbit, 1)), numOrbits - 1)`. -/
def orbitIndex (perOrbit numOrbits i : Nat) : Nat :=
  min (i / max perOrbit 1) (numOrbits - 1)

/-- `orbits[j].push(t)`: append `t` to the `j`-th bucket. -/
def appendAt : List (List Track) → Nat → Track → List (List Track)
  | [], _, _ => []
  | l :: ls, 0, t => (l ++ [t]) :: ls
  | l :: ls, j + 1, t => l :: appendAt ls j t

/-- The `sortedTracks.forEach((track, index) => ...)` loop distributing
tracks into orbit buckets. -/
def distributeOrbits (perOrbit numOrbits : Nat) :
    List (List Track) → Nat → List Track → List (List Track)
  | orbits, _, [] => orbits
  | orbits, i, t :: ts =>
    distributeOrbits perOrbit numOrbits
      (appendAt orbits (orbitIndex perOrbit numOrbits i) t) (i + 1) ts

/-- `tracksByOrbit`: `numOrbits` empty buckets,
`tracksPerOrbit = Math.ceil(sortedTracks.length / numOrbits)`, then the
distribution walk over the recency-sorted list. -/
def tracksByOrbit (numOrbits : Nat) (sorted : List Track) :
    List (List Track) :=
  distributeOrbits (mathCeilDiv sorted.length numOrbits) numOrbits
    (List.replicate numOrbits []) 0 sorted

/-! ### Chat-context aggregation (src/routes/api/chat/message.ts) -/

/-- One `chat_messages` row. -/
structure ChatMsg where
  role : String
  content : String
  nucleus_name : Option String
  deriving DecidableEq, Repr

/-- `emotionCounts[e] = (emotionCounts[e] || 0) + 1` on a JS object whose
keys keep insertion order. -/
def bumpCount : List (String × Nat) → String → List (String × Nat)
  | [], e => [(e, 1)]
  | (k, n) :: rest, e =>
    if k = e then (k, n + 1) :: rest else (k, n) :: bumpCount rest e

/-- The emotion histogram built by the `tracks.forEach` pass (lines 31-41). -/
def emotionCounts (tracks : List Track) : List (String × Nat) :=
  tracks.foldl (fun m t => bumpCount m t.emotion) []

/-- Key lookup in the histogram association list. -/
def alookup : List (String × Nat) → String → Option Nat
  | [], _ => none
  | (k, n) :: rest, e => if k = e then some n else alookup rest e

/-- The claim-level notion of a present emotion: one whose histogram count
is non-zero. -/
def presentEmotion (tracks : List Track) (e : String) : Bool :=
  (alookup (emotionCounts tracks) e).getD 0 ≠ 0

/-- `allEmotions.filter(e => !emotionCounts[e] || emotionCounts[e] === 0)`
(lines 51-52). -/
def absentEmotions (tracks : List Track) : List String :=
  allowedEmotions.filter (fun e =>
    match alookup (emotionCounts tracks) e with
    | none => true
    | some n => n = 0)

/-- Stable insertion into a count-descending list, keeping earlier entries
first on ties (`Object.entries(...).sort(([, a], [, b]) => b - a)` with the
engine-guaranteed stable sort). -/
def insertByCount (p : String × Nat) : List (String × Nat) → List (String × Nat)
  | [] => [p]
  | q :: r => if p.2 < q.2 then q :: insertByCount p r else p :: q :: r

/-- The histogram sorted by count, descending. -/
def sortByCountDesc (l : List (String × Nat)) : List (String × Nat) :=
  l.foldr insertByCount []

/-- The ingredients of the system prompt assembled by the handler
(lines 59-90), kept structured instead of concatenated. -/
structure ChatContext where
  nucleusName : String
  totalTracks : Nat
  avgValence : Rat
  avgEnergy : Rat
  dominantEmotion : String
  dominantCount : Nat
  dominantPercentage : Rat
  absent : List String
  breakdown : List (String × Nat)
  sample : List Track
  deriving DecidableEq, Repr

/-- What one invocation of the chat-message handler did: its HTTP-level
result (`.ok` = 200 with the reply, `.error` = 500 with the message of the
thrown exception), whether the Gemini provider was called, the assembled
context if any, and the chat table after the call. -/
structure ChatOutcome where
  result : Except String String
  providerCalled : Bool
  context : Option ChatContext
  window : List (String × String)
  messages : List ChatMsg
  deriving Repr

/-- The chat-message handler (message.ts lines 22-122) as a function of the
track collection, nucleus name, the prior-message window, the new user
message, the provider-call oracle, and the chat table.  With an empty
collection, `sortedEmotions[0]` is `undefined` and `dominantEmotion[1]`
throws a TypeError (line 49) before the context, the provider call, or any
insert — caught by the outer catch into a 500. -/
def chatMessageHandler (tracks : List Track) (nucleusName : String)
    (message : String)
    (provider : Except String String) (st : List ChatMsg) : ChatOutcome :=
  let counts := emotionCounts tracks
  let validVal := tracks.filterMap (fun t => t.valence)
  let validEn := tracks.filterMap (fun t => t.energy)
  let avgValence : Rat :=
    if 0 < validVal.length then validVal.sum / (validVal.length : Rat) else 0
  let avgEnergy : Rat :=
    if 0 < validEn.length then validEn.sum / (validEn.length : Rat) else 0
  let sorted := sortByCountDesc counts
  match sorted.head? with
  | none =>
    { result := .error "TypeError: Cannot read properties of undefined"
      providerCalled := false
      context := none
      window := []
      messages := st }
  | some dom =>
    let window := ((st.reverse.take 10).reverse).map
      (fun m => ((if m.role = "user" then "user" else "model"), m.content))
    let ctx : ChatContext :=
      { nucleusName := nucleusName
        totalTracks := tracks.length
        avgValence := avgValence
        avgEnergy := avgEnergy
        dominantEmotion := dom.1
        dominantCount := dom.2
        dominantPercentage := ((dom.2 : Rat) / (tracks.length : Rat)) * 100
        absent := absentEmotions tracks
        breakdown := counts
        sample := tracks.take 20 }
    match provider with
    | .error m =>
      { result := .error m
        providerCalled := true
        context := some ctx
        window := window
        messages := st }
    | .ok resp =>
      { result := .ok resp
        providerCalled := true
        context := some ctx
        window := window
        messages := st ++
          [{ role := "user", content := message, nucleus_name := some nucleusName },
           { role := "assistant", content := resp, nucleus_name := some nucleusName }] }

/-! ### Concrete fixtures used by witnesses and counterexamples -/

/-- A well-formed analysis object as the prompt requests it. -/
def rawJoy : RawAnalysis :=
  { emotion := "joy", valence := 1, energy := 1, genre := "pop"
    mood_description := "bright", vocal_characteristics := "clear"
    tempo := some 120, dominant_instruments := some "guitar" }

/-- A parsed analysis object whose emotion is outside the 8-label enum. -/
def rawOutOfEnum : RawAnalysis := { rawJoy with emotion := "ecstasy" }

/-- An empty collection with fresh id/timestamp counters. -/
def emptyDB : DB := { tracks := [], nextId := 1, now := 0 }

/-- Environment with a Genius token configured. -/
def envTok : PipelineEnv := { geniusToken := true }

/-- A candidate whose every external call succeeds. -/
def okCand (i : Nat) : Candidate :=
  { spotifyId := "sid" ++ toString i
    name := "song" ++ toString i
    artists := ["artist"]
    externalUrl := none
    preview_url := none
    duration_ms := 200000
    albumImage := none
    lyricsOutcome := .ok (some "la la") (some "g")
    analysisResult := .ok rawJoy
    insertResult := .ok () }

/-- A minimal persisted track for fixtures. -/
def mkTrack (i : Nat) (e : String) (addedAt : Nat) : Track :=
  { id := i
    spotify_id := "s" ++ toString i
    spotify_url := "u"
    title := "t" ++ toString i
    artist := some "a"
    lyrics := some "l"
    genius_url := none
    has_audio_preview := false
    emotion := e
    valence := some 1
    energy := some 1
    tempo := none
    genre := some "g"
    mood_description := some "m"
    dominant_instruments := none
    vocal_characteristics := some "v"
    duration := some 1000
    thumbnail_url := none
    preview_url := none
    added_at := addedAt }

/-- Track `i` of end-to-end scenario C: `added_at` strictly decreasing in `i`. -/
def sTrack (i : Nat) : Track := mkTrack i "joy" (9 - i)

/-- The 8-track list of scenario C, newest first. -/
def scenario8 : List Track :=
  [sTrack 1, sTrack 2, sTrack 3, sTrack 4, sTrack 5, sTrack 6, sTrack 7, sTrack 8]

/-- A playlist of 26 candidates that would all succeed: one more than the
target of 25, so the loop stops early with one candidate never attempted. -/
def cands26 : List Candidate := (List.range 26).map okCand

/-- The SQLite error message for a duplicate `spotify_id` insert. -/
def uniqueViolationMsg : String := "UNIQUE constraint failed: tracks.spotify_id"

/-- A candidate that passes every stage but whose insert is rejected by the
uniqueness constraint (the late-discovered-duplicate race of spec section 5). -/
def raceCand : Candidate := { okCand 0 with insertResult := .error uniqueViolationMsg }

/-- A candidate whose Gemini analysis parses to an out-of-enum emotion. -/
def outOfEnumCand : Candidate := { okCand 0 with analysisResult := .ok rawOutOfEnum }

/-- Metadata for the single-track counterexample request. -/
def nullLyricsMeta : SingleMeta :=
  { name := "Song X", artists := ["A"], preview_url := none
    duration_ms := 1000, albumImage := none }

/-- A single-track request whose lyrics lookup returns null but whose
embed-based analysis and insert succeed. -/
def nullLyricsReq : SingleReq :=
  { spotifyUrl := "https://open.spotify.com/track/xyz"
    trackId := some "xyz"
    metadataResult := .ok nullLyricsMeta
    audioResult := .error "no preview"
    embedResult := .ok rawJoy
    lyricsResult := (none, none)
    insertResult := .ok () }

/-- The track the single route persists for `nullLyricsReq`. -/
def nullLyricsTrack : Track :=
  assembleSingleTrack emptyDB nullLyricsReq "xyz" nullLyricsMeta rawJoy none none false

/-- A pre-existing row used by the duplicate-check witness. -/
def dupTrack : Track := mkTrack 1 "joy" 0

/-- A collection already holding `dupTrack`. -/
def stDup : DB := { tracks := [dupTrack], nextId := 2, now := 1 }

/-- A candidate whose `spotify_id` collides with `dupTrack`. -/
def dupCand : Candidate := { okCand 0 with spotifyId := dupTrack.spotify_id }

/-- A candidate whose lyrics lookup returns a null lyrics body. -/
def candNoLyrics : Candidate := { okCand 0 with lyricsOutcome := .ok none none }

/-- The last element of a key pool (empty pool gives `""`). -/
def lastKey : List String → String
  | [] => ""
  | [k] => k
  | _ :: k :: ks => lastKey (k :: ks)

/-- Per-candidate count of a given emotion in a track list. -/
def cntEmotion (e : String) (ts : List Track) : Nat :=
  (ts.filter (fun t => t.emotion = e)).length

/-- Does every one of the first `k` candidates succeed when processed in
order from state `st`? (States are threaded exactly as the loop threads
them.) -/
def firstAllSucceedB (env : PipelineEnv) : DB → List Candidate → Nat → Bool
  | _, _, 0 => true
  | _, [], _ + 1 => false
  | st, c :: cs, k + 1 =>
    (processOne env st c).1.isSuccess &&
      firstAllSucceedB env (processOne env st c).2 cs k

/-- Uniqueness invariant: no two rows share a `spotify_id`. -/
def sidsNodup (st : DB) : Prop :=
  (st.tracks.map (fun t => t.spotify_id)).Nodup

/-! ## Theorems -/

/-- Claim C10: with an empty track collection the chat handler indexes an
empty sorted histogram, so it throws before building a context, calling the
provider, or persisting anything: the response is the 500 error branch and
the chat table is unchanged. -/
theorem C10_empty_collection_chat_fails :
    ∀ (nucleusName message : String) (provider : Except String String)
      (st : List ChatMsg),
      chatMessageHandler [] nucleusName message provider st =
        { result := .error "TypeError: Cannot read properties of undefined"
          providerCalled := false
          context := none
          window := []
          messages := st } := by
  intro nucleusName message provider st
  rfl

/-- Claim C3 (failing input): on a 26-candidate playlist whose candidates
would all succeed, the loop stops after 25 successes; the returned
`totalProcessed` field is the playlist length 26, while the three buckets
sum to 25 — the returned summary count is not the bucket sum. -/
theorem C3_totalProcessed_is_not_bucket_sum :
    (analyzePlaylistResponse envTok emptyDB cands26).1.totalProcessed = 26 ∧
    (analyzePlaylistResponse envTok emptyDB cands26).1.successCount +
      (analyzePlaylistResponse envTok emptyDB cands26).1.failedCount +
      (analyzePlaylistResponse envTok emptyDB cands26).1.skippedCount = 25 := by
  exact ⟨rfl, by decide⟩

/-- Rotation helper: a failing key advances the loop to the next key,
recording the error, the attempt, and the key tried. -/
theorem rotateGo_step_error {α : Type} (op : String → Except String α)
    (total : Nat) (k : String) (ks : List String) (m : String)
    (last : Option String) (att : Nat) (tried : List String)
    (hk : op k = .error m) :
    rotateGo op total (k :: ks) last att tried =
      rotateGo op total ks (some m) (att + 1) (tried ++ [k]) := by
  simp [rotateGo, hk]

/-- Rotation helper: if every key in a non-empty suffix fails, the loop
tries them all in order, then returns the aggregate error built from the
configured total and the suffix's last error message. -/
theorem rotateGo_all_fail {α : Type} (op : String → Except String α)
    (errOf : String → String) (total : Nat) :
    ∀ (ks : List String) (last : Option String) (att : Nat) (tried : List String),
      ks ≠ [] → (∀ k ∈ ks, op k = .error (errOf k)) →
      rotateGo op total ks last att tried =
        (.error (exhaustMsg total (some (errOf (lastKey ks)))),
         att + ks.length, tried ++ ks) := by
  intro ks
  induction ks with
  | nil => intro _ _ _ h; exact absurd rfl h
  | cons k ks ih =>
    intro last att tried _ hfail
    have hk : op k = .error (errOf k) := hfail k (List.mem_cons_self k ks)
    cases ks with
    | nil =>
      simp [rotateGo, hk, lastKey]
    | cons k2 ks2 =>
      have step := ih (some (errOf k)) (att + 1) (tried ++ [k])
        (List.cons_ne_nil k2 ks2)
        (fun x hx => hfail x (List.mem_cons_of_mem k hx))
      rw [rotateGo_step_error op total k (k2 :: ks2) (errOf k) last att tried hk,
        step]
      simp [lastKey, List.append_assoc]
      omega

/-- Claim C6: a pool of k credentials that all fail is tried exactly k
times, in list order from index 0, and the call fails with the aggregate
error naming the pool size k and the last underlying error message. -/
theorem C6_rotation_exhaustion {α : Type} :
    ∀ (keys : List String) (op : String → Except String α)
      (errOf : String → String),
      keys ≠ [] → (∀ k ∈ keys, op k = .error (errOf k)) →
      withApiKeyRotation keys op =
        (.error (exhaustMsg keys.length (some (errOf (lastKey keys)))),
         keys.length, keys) := by
  intro keys op errOf hne hfail
  have := rotateGo_all_fail op errOf keys.length keys none 0 [] hne hfail
  simpa using this

/-- Witness for C6 at a concrete pool of three keys that all fail with
message `quota`. -/
theorem C6_rotation_exhaustion_witness :
    (["k1", "k2", "k3"] : List String) ≠ [] ∧
    withApiKeyRotation ["k1", "k2", "k3"]
        (fun _ => (.error "quota" : Except String Nat)) =
      (.error (exhaustMsg 3 (some "quota")), 3, ["k1", "k2", "k3"]) := by
  refine ⟨by decide, ?_⟩
  exact C6_rotation_exhaustion ["k1", "k2", "k3"]
    (fun _ => (.error "quota" : Except String Nat)) (fun _ => "quota")
    (by decide) (fun k _ => rfl)

/-- `appendAt` never changes the number of buckets. -/
theorem appendAt_length (orbits : List (List Track)) (j : Nat) (t : Track) :
    (appendAt orbits j t).length = orbits.length := by
  induction orbits generalizing j with
  | nil => rfl
  | cons l ls ih =>
    cases j with
    | zero => rfl
    | succ j => simp [appendAt, ih j]

/-- `appendAt` appends to the chosen bucket and leaves the others alone. -/
theorem appendAt_getD (orbits : List (List Track)) (j' : Nat)
    (hj' : j' < orbits.length) (j : Nat) (t : Track) :
    (appendAt orbits j t).getD j' [] =
      if j = j' then orbits.getD j' [] ++ [t] else orbits.getD j' [] := by
  induction orbits generalizing j j' with
  | nil => simp at hj'
  | cons l ls ih =>
    cases j' with
    | zero =>
      cases j with
      | zero => simp [appendAt]
      | succ j => simp [appendAt]
    | succ j' =>
      cases j with
      | zero => simp [appendAt]
      | succ j =>
        have hj'' : j' < ls.length := by simpa using hj'
        simp only [appendAt, List.getD_cons_succ]
        rw [ih j' hj'' j]
        by_cases h : j = j'
        · simp [h]
        · simp [h, fun hc => h (Nat.succ_injective hc)]

/-- The distribution walk never changes the number of buckets. -/
theorem distributeOrbits_length (perOrbit numOrbits : Nat)
    (ts : List Track) :
    ∀ (orbits : List (List Track)) (i : Nat),
      (distributeOrbits perOrbit numOrbits orbits i ts).length = orbits.length := by
  induction ts with
  | nil => intro orbits i; rfl
  | cons t ts ih =>
    intro orbits i
    simp [distributeOrbits, ih, appendAt_length]

/-- Bucket `j` after the distribution walk: its old contents followed by
the walked elements whose (offset) index maps to orbit `j`, in input order. -/
theorem distributeOrbits_getD (perOrbit numOrbits : Nat) (ts : List Track) :
    ∀ (orbits : List (List Track)) (i j : Nat), j < orbits.length →
      (distributeOrbits perOrbit numOrbits orbits i ts).getD j [] =
        orbits.getD j [] ++
          ((ts.enumFrom i).filter
            (fun p => orbitIndex perOrbit numOrbits p.1 = j)).map Prod.snd := by
  induction ts with
  | nil => intro orbits i j _; simp [distributeOrbits]
  | cons t ts ih =>
    intro orbits i j hj
    have hj' : j < (appendAt orbits (orbitIndex perOrbit numOrbits i) t).length := by
      rw [appendAt_length]; exact hj
    simp only [distributeOrbits]
    rw [ih (appendAt orbits (orbitIndex perOrbit numOrbits i) t) (i + 1) j hj',
      appendAt_getD orbits j hj (orbitIndex perOrbit numOrbits i) t]
    by_cases h : orbitIndex perOrbit numOrbits i = j
    · simp [List.enumFrom, h, List.append_assoc]
    · simp [List.enumFrom, h]

/-- A bucket of `List.replicate n []` is `[]`. -/
theorem getD_replicate_nil (n j : Nat) :
    (List.replicate n ([] : List Track)).getD j [] = [] := by
  induction n generalizing j with
  | zero => cases j <;> rfl
  | succ n ih =>
    cases j with
    | zero => rfl
    | succ j => exact ih j

/-- Claim C7: orbit assignment has exactly `numOrbits` buckets; bucket `j`
holds precisely the sorted-index-`i` elements with
`min(floor(i / max(perOrbit, 1)), N - 1) = j`, in order, where
`perOrbit = ceil(count / N)`; an empty collection gives all-empty orbits;
and scenario C (8 tracks, strictly decreasing `added_at`, 4 orbits) yields
`perOrbit = 2` and consecutive pairs in the 4 orbits. -/
theorem C7_orbit_assignment :
    (∀ (N : Nat) (sorted : List Track) (j : Nat), 0 < N → j < N →
      (tracksByOrbit N sorted).length = N ∧
      (tracksByOrbit N sorted).getD j [] =
        ((sorted.enumFrom 0).filter
          (fun p => orbitIndex (mathCeilDiv sorted.length N) N p.1 = j)).map
          Prod.snd) ∧
    (∀ N : Nat, tracksByOrbit N [] = List.replicate N []) ∧
    mathCeilDiv 8 4 = 2 ∧
    tracksByOrbit 4 scenario8 =
      [[sTrack 1, sTrack 2], [sTrack 3, sTrack 4],
       [sTrack 5, sTrack 6], [sTrack 7, sTrack 8]] := by
  refine ⟨?_, ?_, by decide, by decide⟩
  · intro N sorted j hN hj
    constructor
    · unfold tracksByOrbit
      rw [distributeOrbits_length, List.length_replicate]
    · unfold tracksByOrbit
      rw [distributeOrbits_getD (mathCeilDiv sorted.length N) N sorted
        (List.replicate N ([] : List Track)) 0 j (by simpa using hj)]
      rw [getD_replicate_nil]
      rfl
  · intro N
    rfl

/-- Witness for C7: the general bucket description instantiated at the
scenario-C list with `N = 4`, `j = 1`. -/
theorem C7_orbit_assignment_witness :
    (0 : Nat) < 4 ∧ (1 : Nat) < 4 ∧
    ((tracksByOrbit 4 scenario8).length = 4 ∧
      (tracksByOrbit 4 scenario8).getD 1 [] =
        ((scenario8.enumFrom 0).filter
          (fun p => orbitIndex (mathCeilDiv scenario8.length 4) 4 p.1 = 1)).map
          Prod.snd) :=
  ⟨by decide, by decide,
    C7_orbit_assignment.1 4 scenario8 1 (by decide) (by decide)⟩

/-- Bumping an emotion increments its own histogram entry. -/
theorem alookup_bumpCount_self (m : List (String × Nat)) (e : String) :
    alookup (bumpCount m e) e = some ((alookup m e).getD 0 + 1) := by
  induction m with
  | nil => simp [bumpCount, alookup]
  | cons p rest ih =>
    by_cases h : p.1 = e
    · simp [bumpCount, alookup, h]
    · simp [bumpCount, alookup, h, ih]

/-- Bumping an emotion leaves other histogram entries unchanged. -/
theorem alookup_bumpCount_ne (m : List (String × Nat)) (e e' : String)
    (h : e' ≠ e) :
    alookup (bumpCount m e) e' = alookup m e' := by
  have hne : ¬e = e' := fun hc => h hc.symm
  induction m with
  | nil => simp [bumpCount, alookup, hne]
  | cons p rest ih =>
    by_cases hp : p.1 = e
    · have hp' : ¬p.1 = e' := fun hq => hne (hp.symm.trans hq)
      simp [bumpCount, alookup, hp, hp', hne]
    · by_cases hq : p.1 = e'
      · simp [bumpCount, alookup, hp, hq, h]
      · simp [bumpCount, alookup, hp, hq, ih]

/-- The histogram fold over a track list, starting from any accumulator:
the entry for `e` grows by the number of tracks with emotion `e`, and an
absent key stays absent exactly when that count is zero. -/
theorem alookup_foldl_bumpCount (e : String) :
    ∀ (ts : List Track) (m : List (String × Nat)),
      alookup (ts.foldl (fun m t => bumpCount m t.emotion) m) e =
        match alookup m e with
        | some n => some (n + cntEmotion e ts)
        | none =>
          if cntEmotion e ts = 0 then none else some (cntEmotion e ts) := by
  intro ts
  induction ts with
  | nil =>
    intro m
    cases h : alookup m e <;> simp [cntEmotion, h]
  | cons t ts ih =>
    intro m
    rw [List.foldl_cons, ih (bumpCount m t.emotion)]
    by_cases he : t.emotion = e
    · rw [he, alookup_bumpCount_self m e]
      have hcnt : cntEmotion e (t :: ts) = cntEmotion e ts + 1 := by
        simp [cntEmotion, List.filter_cons, he, Nat.add_comm]
      cases h : alookup m e <;> simp [h, hcnt] <;> omega
    · rw [alookup_bumpCount_ne m t.emotion e (fun hc => he hc.symm)]
      have hcnt : cntEmotion e (t :: ts) = cntEmotion e ts := by
        simp [cntEmotion, List.filter_cons, he]
      cases h : alookup m e <;> simp [h, hcnt]

/-- The histogram entry for `e` is its occurrence count, absent iff zero. -/
theorem alookup_emotionCounts (ts : List Track) (e : String) :
    alookup (emotionCounts ts) e =
      if cntEmotion e ts = 0 then none else some (cntEmotion e ts) := by
  have := alookup_foldl_bumpCount e ts []
  simpa [emotionCounts, alookup] using this

/-- An emotion is present exactly when some track carries it. -/
theorem presentEmotion_iff (ts : List Track) (e : String) :
    presentEmotion ts e = true ↔ cntEmotion e ts ≠ 0 := by
  unfold presentEmotion
  rw [alookup_emotionCounts]
  by_cases h : cntEmotion e ts = 0 <;> simp [h]

/-- An emotion is absent exactly when it is canonical and uncounted. -/
theorem mem_absentEmotions_iff (ts : List Track) (e : String) :
    e ∈ absentEmotions ts ↔ e ∈ allowedEmotions ∧ cntEmotion e ts = 0 := by
  unfold absentEmotions
  rw [List.mem_filter]
  constructor
  · rintro ⟨hmem, hp⟩
    refine ⟨hmem, ?_⟩
    rw [alookup_emotionCounts] at hp
    by_cases h : cntEmotion e ts = 0
    · exact h
    · rw [if_neg h] at hp
      exact absurd (by simpa using hp) h
  · rintro ⟨hmem, hz⟩
    refine ⟨hmem, ?_⟩
    rw [alookup_emotionCounts, if_pos hz]

/-- A non-zero count means some track carries the emotion. -/
theorem exists_track_of_cnt_ne_zero (ts : List Track) (e : String)
    (h : cntEmotion e ts ≠ 0) : ∃ t ∈ ts, t.emotion = e := by
  unfold cntEmotion at h
  have hpos : 0 < (ts.filter (fun t => t.emotion = e)).length :=
    Nat.pos_of_ne_zero h
  obtain ⟨t, ht⟩ := List.exists_mem_of_length_pos hpos
  rw [List.mem_filter] at ht
  exact ⟨t, ht.1, by simpa using ht.2⟩

/-- Claim C9: over a collection of well-formed tracks (each emotion drawn
from the 8-label set), the present emotions and the computed absent
emotions are disjoint and together are exactly the 8-label set. -/
theorem C9_absent_emotion_completeness (tracks : List Track)
    (hwf : ∀ t ∈ tracks, t.emotion ∈ allowedEmotions) :
    (∀ e, (presentEmotion tracks e = true ∨ e ∈ absentEmotions tracks) ↔
      e ∈ allowedEmotions) ∧
    (∀ e, ¬(presentEmotion tracks e = true ∧ e ∈ absentEmotions tracks)) := by
  constructor
  · intro e
    constructor
    · rintro (hp | ha)
      · rw [presentEmotion_iff] at hp
        obtain ⟨t, htmem, hte⟩ := exists_track_of_cnt_ne_zero tracks e hp
        exact hte ▸ hwf t htmem
      · exact ((mem_absentEmotions_iff tracks e).1 ha).1
    · intro hmem
      by_cases h : cntEmotion e tracks = 0
      · exact Or.inr ((mem_absentEmotions_iff tracks e).2 ⟨hmem, h⟩)
      · exact Or.inl ((presentEmotion_iff tracks e).2 h)
  · rintro e ⟨hp, ha⟩
    rw [presentEmotion_iff] at hp
    exact hp ((mem_absentEmotions_iff tracks e).1 ha).2

/-- Witness for C9 on a two-track collection (joy, sadness), checked at the
label `joy`. -/
theorem C9_absent_emotion_completeness_witness :
    (∀ t ∈ [mkTrack 1 "joy" 2, mkTrack 2 "sadness" 1],
      t.emotion ∈ allowedEmotions) ∧
    ((presentEmotion [mkTrack 1 "joy" 2, mkTrack 2 "sadness" 1] "joy" = true ∨
      "joy" ∈ absentEmotions [mkTrack 1 "joy" 2, mkTrack 2 "sadness" 1]) ↔
      "joy" ∈ allowedEmotions) :=
  ⟨by decide,
    (C9_absent_emotion_completeness
      [mkTrack 1 "joy" 2, mkTrack 2 "sadness" 1] (by decide)).1 "joy"⟩

/-- Duplicate check: an existing `spotify_id` short-circuits to `skipped`
with the collection untouched. -/
theorem processOne_dup_eq (env : PipelineEnv) (st : DB) (c : Candidate)
    (t : Track) (hdup : getBySpotifyId st c.spotifyId = some t) :
    processOne env st c =
      (.skipped c.name (artistNameOf c) "Already in collection", st) := by
  simp [processOne, hdup]

/-- A null lyrics result yields the `No lyrics found` failure, collection
untouched. -/
theorem processOne_nullLyrics_eq (env : PipelineEnv) (st : DB) (c : Candidate)
    (u : Option String) (hdup : getBySpotifyId st c.spotifyId = none)
    (htok : env.geniusToken = true) (hlyr : c.lyricsOutcome = .ok none u) :
    processOne env st c =
      (.failed c.name (artistNameOf c) "No lyrics found", st) := by
  simp [processOne, hdup, htok, hlyr]

/-- A rejected insert (for example a uniqueness-constraint violation) is
caught and classified as `failed` with the error message, collection
untouched. -/
theorem processOne_insertErr_eq (env : PipelineEnv) (st : DB) (c : Candidate)
    (a : RawAnalysis) (l : String) (u : Option String) (m : String)
    (hdup : getBySpotifyId st c.spotifyId = none)
    (htok : env.geniusToken = true)
    (hlyr : c.lyricsOutcome = .ok (some l) u) (hl : l ≠ "")
    (hana : c.analysisResult = .ok a)
    (hins : c.insertResult = .error m) :
    processOne env st c = (.failed c.name (artistNameOf c) m, st) := by
  simp [processOne, hdup, htok, hlyr, hl, hana, hins]

/-- The all-stages-succeed branch: the assembled row is appended and
returned. -/
theorem processOne_success_eq (env : PipelineEnv) (st : DB) (c : Candidate)
    (a : RawAnalysis) (l : String) (u : Option String)
    (hdup : getBySpotifyId st c.spotifyId = none)
    (htok : env.geniusToken = true)
    (hlyr : c.lyricsOutcome = .ok (some l) u) (hl : l ≠ "")
    (hana : c.analysisResult = .ok a)
    (hins : c.insertResult = .ok ()) :
    processOne env st c =
      (.success (assembleTrack st c a l u),
       { tracks := st.tracks ++ [assembleTrack st c a l u]
         nextId := st.nextId + 1
         now := st.now + 1 }) := by
  simp [processOne, hdup, htok, hlyr, hl, hana, hins]

/-- A failed duplicate lookup means the id is on no existing row. -/
theorem getBySpotifyId_none_notin (st : DB) (sid : String)
    (h : getBySpotifyId st sid = none) :
    sid ∉ st.tracks.map (fun t => t.spotify_id) := by
  intro hmem
  obtain ⟨t, htmem, hts⟩ := List.mem_map.1 hmem
  have hall := List.find?_eq_none.1 h t htmem
  exact hall (by simp [hts])

/-- Appending a row with a fresh id preserves id-uniqueness. -/
theorem sidsNodup_append (st : DB) (t : Track) (h : sidsNodup st)
    (hnew : t.spotify_id ∉ st.tracks.map (fun x => x.spotify_id)) :
    ((st.tracks ++ [t]).map (fun x => x.spotify_id)).Nodup := by
  rw [List.map_append, List.nodup_append]
  refine ⟨h, List.nodup_singleton _, ?_⟩
  intro x hx hx2
  simp at hx2
  exact hnew (hx2 ▸ hx)

/-- Processing one candidate preserves the `spotify_id` uniqueness
invariant: an insert happens only after the duplicate check came back
empty. -/
theorem processOne_sidsNodup (env : PipelineEnv) (st : DB) (c : Candidate)
    (h : sidsNodup st) : sidsNodup (processOne env st c).2 := by
  cases hdup : getBySpotifyId st c.spotifyId with
  | some t => rw [processOne_dup_eq env st c t hdup]; exact h
  | none =>
    have hnotin := getBySpotifyId_none_notin st c.spotifyId hdup
    cases htok : env.geniusToken with
    | false => simpa [processOne, hdup, htok] using h
    | true =>
      cases hlyr : c.lyricsOutcome with
      | threw => simpa [processOne, hdup, htok, hlyr] using h
      | ok l? u =>
        cases l? with
        | none => simpa [processOne, hdup, htok, hlyr] using h
        | some l =>
          by_cases hl : l = ""
          · simpa [processOne, hdup, htok, hlyr, hl] using h
          · cases hana : c.analysisResult with
            | error m => simpa [processOne, hdup, htok, hlyr, hl, hana] using h
            | ok a =>
              cases hins : c.insertResult with
              | error m =>
                simpa [processOne, hdup, htok, hlyr, hl, hana, hins] using h
              | ok u2 =>
                rw [processOne_success_eq env st c a l u hdup htok hlyr hl hana
                  (by cases u2; exact hins)]
                exact sidsNodup_append st (assembleTrack st c a l u) h hnotin

/-- The batch loop preserves `spotify_id` uniqueness through every
candidate. -/
theorem runBatch_sidsNodup (env : PipelineEnv) (target : Nat) :
    ∀ (cs : List Candidate) (st : DB) (acc : BatchAcc),
      sidsNodup st → sidsNodup (runBatch env target st acc cs).2 := by
  intro cs
  induction cs with
  | nil => intro st acc h; exact h
  | cons c cs ih =>
    intro st acc h
    by_cases hstop : target ≤ acc.success.length
    · simpa [runBatch, hstop] using h
    · rw [show runBatch env target st acc (c :: cs) =
        runBatch env target (processOne env st c).2
          (pushOutcome acc (processOne env st c).1) cs from by
          simp [runBatch, hstop]]
      exact ih (processOne env st c).2 (pushOutcome acc (processOne env st c).1)
        (processOne_sidsNodup env st c h)

/-- The single-track route also inserts only after an empty duplicate
lookup, preserving `spotify_id` uniqueness. -/
theorem analyzeSingle_sidsNodup (env : PipelineEnv) (st : DB)
    (req : SingleReq) (h : sidsNodup st) :
    sidsNodup (analyzeSingle env st req).2 := by
  cases htid : req.trackId with
  | none => simpa [analyzeSingle, htid] using h
  | some tid =>
    cases hdup : getBySpotifyId st tid with
    | some t => simpa [analyzeSingle, htid, hdup] using h
    | none =>
      have hnotin := getBySpotifyId_none_notin st tid hdup
      cases hmd : req.metadataResult with
      | error m => simpa [analyzeSingle, htid, hdup, hmd] using h
      | ok md =>
        by_cases hpv : jsTruthyStr md.preview_url
        · cases hau : req.audioResult with
          | ok a =>
            cases hins : req.insertResult with
            | error m =>
              simpa [analyzeSingle, htid, hdup, hmd, hpv, hau, hins] using h
            | ok u2 =>
              rw [show analyzeSingle env st req =
                (.created (assembleSingleTrack st req tid md a
                    (if env.geniusToken then req.lyricsResult else (none, none)).1
                    (if env.geniusToken then req.lyricsResult else (none, none)).2
                    true),
                 { tracks := st.tracks ++ [assembleSingleTrack st req tid md a
                     (if env.geniusToken then req.lyricsResult else (none, none)).1
                     (if env.geniusToken then req.lyricsResult else (none, none)).2
                     true]
                   nextId := st.nextId + 1
                   now := st.now + 1 }) from by
                cases u2
                simp [analyzeSingle, htid, hdup, hmd, hpv, hau, hins]]
              exact sidsNodup_append st _ h hnotin
          | error m =>
            cases hem : req.embedResult with
            | error m2 =>
              simpa [analyzeSingle, htid, hdup, hmd, hpv, hau, hem] using h
            | ok a =>
              cases hins : req.insertResult with
              | error m2 =>
                simpa [analyzeSingle, htid, hdup, hmd, hpv, hau, hem, hins] using h
              | ok u2 =>
                rw [show analyzeSingle env st req =
                  (.created (assembleSingleTrack st req tid md a
                      (if env.geniusToken then req.lyricsResult else (none, none)).1
                      (if env.geniusToken then req.lyricsResult else (none, none)).2
                      false),
                   { tracks := st.tracks ++ [assembleSingleTrack st req tid md a
                       (if env.geniusToken then req.lyricsResult else (none, none)).1
                       (if env.geniusToken then req.lyricsResult else (none, none)).2
                       false]
                     nextId := st.nextId + 1
                     now := st.now + 1 }) from by
                  cases u2
                  simp [analyzeSingle, htid, hdup, hmd, hpv, hau, hem, hins]]
                exact sidsNodup_append st _ h hnotin
        · cases hem : req.embedResult with
          | error m2 =>
            simpa [analyzeSingle, htid, hdup, hmd, hpv, hem] using h
          | ok a =>
            cases hins : req.insertResult with
            | error m2 =>
              simpa [analyzeSingle, htid, hdup, hmd, hpv, hem, hins] using h
            | ok u2 =>
              rw [show analyzeSingle env st req =
                (.created (assembleSingleTrack st req tid md a
                    (if env.geniusToken then req.lyricsResult else (none, none)).1
                    (if env.geniusToken then req.lyricsResult else (none, none)).2
                    false),
                 { tracks := st.tracks ++ [assembleSingleTrack st req tid md a
                     (if env.geniusToken then req.lyricsResult else (none, none)).1
                     (if env.geniusToken then req.lyricsResult else (none, none)).2
                     false]
                   nextId := st.nextId + 1
                   now := st.now + 1 }) from by
                cases u2
                simp [analyzeSingle, htid, hdup, hmd, hpv, hem, hins]]
              exact sidsNodup_append st _ h hnotin

/-- A success outcome carries a track. -/
theorem isSuccess_exists (o : CandOutcome) (h : o.isSuccess = true) :
    ∃ t, o = .success t := by
  cases o with
  | success t => exact ⟨t, rfl⟩
  | failed n a r => simp [CandOutcome.isSuccess] at h
  | skipped n a r => simp [CandOutcome.isSuccess] at h

/-- Claim C1: an existing `spotify_id` makes the batch pipeline skip with
`Already in collection` and an unchanged collection; the single route
answers the conflict with the pre-existing row itself; and both insert
paths preserve the one-row-per-`spotify_id` invariant. -/
theorem C1_dedup_idempotence :
    (∀ (env : PipelineEnv) (st : DB) (c : Candidate) (t : Track),
      getBySpotifyId st c.spotifyId = some t →
      processOne env st c =
        (.skipped c.name (artistNameOf c) "Already in collection", st)) ∧
    (∀ (env : PipelineEnv) (st : DB) (req : SingleReq) (tid : String) (t : Track),
      req.trackId = some tid → getBySpotifyId st tid = some t →
      analyzeSingle env st req = (.conflict "Track already exists" t, st)) ∧
    (∀ (env : PipelineEnv) (target : Nat) (cs : List Candidate) (st : DB)
       (acc : BatchAcc),
      sidsNodup st → sidsNodup (runBatch env target st acc cs).2) ∧
    (∀ (env : PipelineEnv) (st : DB) (req : SingleReq),
      sidsNodup st → sidsNodup (analyzeSingle env st req).2) := by
  refine ⟨?_, ?_, ?_, ?_⟩
  · intro env st c t hdup
    exact processOne_dup_eq env st c t hdup
  · intro env st req tid t htid hdup
    simp [analyzeSingle, htid, hdup]
  · intro env target cs st acc h
    exact runBatch_sidsNodup env target cs st acc h
  · intro env st req h
    exact analyzeSingle_sidsNodup env st req h

/-- Witness for C1 at a one-row collection and a colliding candidate. -/
theorem C1_dedup_idempotence_witness :
    getBySpotifyId stDup dupCand.spotifyId = some dupTrack ∧
    processOne envTok stDup dupCand =
      (.skipped dupCand.name (artistNameOf dupCand) "Already in collection",
       stDup) :=
  ⟨rfl, C1_dedup_idempotence.1 envTok stDup dupCand dupTrack rfl⟩

/-- First-k-succeed runs of the batch loop, for any starting accumulator
that still needs exactly k more successes: the loop consumes exactly the
first k candidates, each into the success bucket. -/
theorem runBatch_firstSucceed (env : PipelineEnv) :
    ∀ (k : Nat) (cs : List Candidate) (st : DB) (acc : BatchAcc) (target : Nat),
      firstAllSucceedB env st cs k = true →
      acc.success.length + k = target →
      runBatch env target st acc cs = runBatch env target st acc (cs.take k) ∧
      (runBatch env target st acc cs).1.attempted = acc.attempted + k ∧
      (runBatch env target st acc cs).1.success.length = target ∧
      (runBatch env target st acc cs).1.failed = acc.failed ∧
      (runBatch env target st acc cs).1.skipped = acc.skipped := by
  intro k
  induction k with
  | zero =>
    intro cs st acc target _ htarget
    have hstop : target ≤ acc.success.length := by omega
    cases cs with
    | nil =>
      refine ⟨rfl, by simp [runBatch], ?_, rfl, rfl⟩
      simp only [runBatch]
      omega
    | cons c cs =>
      rw [List.take_zero]
      refine ⟨by simp [runBatch, hstop], ?_, ?_, ?_, ?_⟩ <;>
        (simp [runBatch, hstop]; try omega)
  | succ k ih =>
    intro cs st acc target hsucc htarget
    cases cs with
    | nil => simp [firstAllSucceedB] at hsucc
    | cons c cs =>
      have hstep : (processOne env st c).1.isSuccess = true ∧
          firstAllSucceedB env (processOne env st c).2 cs k = true := by
        simpa [firstAllSucceedB, Bool.and_eq_true] using hsucc
      obtain ⟨t, ht⟩ := isSuccess_exists _ hstep.1
      have hnostop : ¬target ≤ acc.success.length := by omega
      have hcons : runBatch env target st acc (c :: cs) =
          runBatch env target (processOne env st c).2
            (pushOutcome acc (processOne env st c).1) cs := by
        simp [runBatch, hnostop]
      have hconsTake : runBatch env target st acc ((c :: cs).take (k + 1)) =
          runBatch env target (processOne env st c).2
            (pushOutcome acc (processOne env st c).1) (cs.take k) := by
        rw [List.take_succ_cons]
        simp [runBatch, hnostop]
      have hlen : (pushOutcome acc (processOne env st c).1).success.length =
          acc.success.length + 1 := by rw [ht]; simp [pushOutcome]
      have hatt : (pushOutcome acc (processOne env st c).1).attempted =
          acc.attempted + 1 := by rw [ht]; simp [pushOutcome]
      have hfail : (pushOutcome acc (processOne env st c).1).failed =
          acc.failed := by rw [ht]; simp [pushOutcome]
      have hskip : (pushOutcome acc (processOne env st c).1).skipped =
          acc.skipped := by rw [ht]; simp [pushOutcome]
      have hrec := ih cs (processOne env st c).2
        (pushOutcome acc (processOne env st c).1) target hstep.2 (by omega)
      refine ⟨?_, ?_, ?_, ?_, ?_⟩
      · rw [hcons, hconsTake]; exact hrec.1
      · rw [hcons, hrec.2.1, hatt]; omega
      · rw [hcons]; exact hrec.2.2.1
      · rw [hcons, hrec.2.2.2.1, hfail]
      · rw [hcons, hrec.2.2.2.2, hskip]

/-- Claim C5: if the first T candidates all succeed, the batch controller
attempts exactly T candidates, the success bucket reaches the target T,
the other buckets stay empty, and the run is identical to a run on just
the first T candidates — the remainder is never attempted. -/
theorem C5_batch_target_stopping (env : PipelineEnv) (st : DB)
    (cs : List Candidate) (T : Nat)
    (h : firstAllSucceedB env st cs T = true) :
    (runBatch env T st emptyAcc cs).1.attempted = T ∧
    (runBatch env T st emptyAcc cs).1.success.length = T ∧
    (runBatch env T st emptyAcc cs).1.failed = [] ∧
    (runBatch env T st emptyAcc cs).1.skipped = [] ∧
    runBatch env T st emptyAcc cs = runBatch env T st emptyAcc (cs.take T) := by
  have hrec := runBatch_firstSucceed env T cs st emptyAcc T h (by simp [emptyAcc])
  exact ⟨by simpa [emptyAcc] using hrec.2.1, hrec.2.2.1,
    by simpa [emptyAcc] using hrec.2.2.2.1,
    by simpa [emptyAcc] using hrec.2.2.2.2, hrec.1⟩

/-- Witness for C5: three all-succeeding candidates with target 2 — two
attempted, third untouched. -/
theorem C5_batch_target_stopping_witness :
    firstAllSucceedB envTok emptyDB [okCand 0, okCand 1, okCand 2] 2 = true ∧
    ((runBatch envTok 2 emptyDB emptyAcc [okCand 0, okCand 1, okCand 2]).1.attempted = 2 ∧
     (runBatch envTok 2 emptyDB emptyAcc [okCand 0, okCand 1, okCand 2]).1.success.length = 2 ∧
     (runBatch envTok 2 emptyDB emptyAcc [okCand 0, okCand 1, okCand 2]).1.failed = [] ∧
     (runBatch envTok 2 emptyDB emptyAcc [okCand 0, okCand 1, okCand 2]).1.skipped = [] ∧
     runBatch envTok 2 emptyDB emptyAcc [okCand 0, okCand 1, okCand 2] =
       runBatch envTok 2 emptyDB emptyAcc
         ([okCand 0, okCand 1, okCand 2].take 2)) :=
  ⟨by decide,
    C5_batch_target_stopping envTok emptyDB [okCand 0, okCand 1, okCand 2] 2
      (by decide)⟩

/-- Claim C8 counterexample: when the insert is rejected with the
`spotify_id` uniqueness-violation message, the catch block records the
candidate as `failed` with that message — not as `skipped`. -/
theorem C8_counterexample_unique_violation_not_skipped :
    (processOne envTok emptyDB raceCand).1 =
      .failed raceCand.name (artistNameOf raceCand) uniqueViolationMsg ∧
    (processOne envTok emptyDB raceCand).1.isSkipped = false ∧
    (processOne envTok emptyDB raceCand).2 = emptyDB :=
  ⟨rfl, rfl, rfl⟩

/-- Claim C8 (amended): a uniqueness-constraint rejection at insert time is
classified as `Failed` carrying the error message; it is not fatal — the
batch continues with the remaining candidates. -/
theorem C8_persist_conflict_failed_not_fatal (env : PipelineEnv) (st : DB)
    (c : Candidate) (a : RawAnalysis) (l : String) (u : Option String)
    (m : String)
    (hdup : getBySpotifyId st c.spotifyId = none)
    (htok : env.geniusToken = true)
    (hlyr : c.lyricsOutcome = .ok (some l) u) (hl : l ≠ "")
    (hana : c.analysisResult = .ok a)
    (hins : c.insertResult = .error m) :
    processOne env st c = (.failed c.name (artistNameOf c) m, st) ∧
    ∀ (target : Nat) (acc : BatchAcc) (cs : List Candidate),
      acc.success.length < target →
      runBatch env target st acc (c :: cs) =
        runBatch env target st
          (pushOutcome acc (.failed c.name (artistNameOf c) m)) cs := by
  have heq := processOne_insertErr_eq env st c a l u m hdup htok hlyr hl hana hins
  refine ⟨heq, ?_⟩
  intro target acc cs hlt
  have hnostop : ¬target ≤ acc.success.length := by omega
  simp [runBatch, hnostop, heq]

/-- Witness for the amended C8 at the concrete racing candidate. -/
theorem C8_persist_conflict_failed_not_fatal_witness :
    getBySpotifyId emptyDB raceCand.spotifyId = none ∧
    processOne envTok emptyDB raceCand =
      (.failed raceCand.name (artistNameOf raceCand) uniqueViolationMsg,
       emptyDB) ∧
    runBatch envTok 1 emptyDB emptyAcc [raceCand] =
      runBatch envTok 1 emptyDB
        (pushOutcome emptyAcc
          (.failed raceCand.name (artistNameOf raceCand) uniqueViolationMsg))
        [] :=
  ⟨rfl,
    (C8_persist_conflict_failed_not_fatal envTok emptyDB raceCand rawJoy
      "la la" (some "g") uniqueViolationMsg rfl rfl rfl (by decide) rfl rfl).1,
    (C8_persist_conflict_failed_not_fatal envTok emptyDB raceCand rawJoy
      "la la" (some "g") uniqueViolationMsg rfl rfl rfl (by decide) rfl
      rfl).2 1 emptyAcc [] (by decide)⟩

/-- Claim C4 counterexample: the single-track route persists a row even
though its lyrics lookup returned null — the stored row has null lyrics. -/
theorem C4_counterexample_null_lyrics_persisted :
    nullLyricsReq.lyricsResult = (none, none) ∧
    analyzeSingle envTok emptyDB nullLyricsReq =
      (.created nullLyricsTrack,
       { tracks := [nullLyricsTrack], nextId := 2, now := 1 }) ∧
    nullLyricsTrack.lyrics = none :=
  ⟨rfl, rfl, rfl⟩

/-- Claim C4 (amended): in the lyrics-based batch pipeline a null lyrics
result is the hard failure `No lyrics found` with nothing persisted, while
the audio/embed-based single-track route tolerates a null lyrics result
and persists the row with null lyrics. -/
theorem C4_null_lyrics_split :
    (∀ (env : PipelineEnv) (st : DB) (c : Candidate) (u : Option String),
      getBySpotifyId st c.spotifyId = none → env.geniusToken = true →
      c.lyricsOutcome = .ok none u →
      processOne env st c =
        (.failed c.name (artistNameOf c) "No lyrics found", st)) ∧
    (∀ (env : PipelineEnv) (st : DB) (req : SingleReq) (tid : String)
       (md : SingleMeta) (a : RawAnalysis),
      req.trackId = some tid → getBySpotifyId st tid = none →
      req.metadataResult = .ok md → jsTruthyStr md.preview_url = false →
      req.embedResult = .ok a → env.geniusToken = true →
      req.lyricsResult = (none, none) → req.insertResult = .ok () →
      analyzeSingle env st req =
        (.created (assembleSingleTrack st req tid md a none none false),
         { tracks := st.tracks ++
             [assembleSingleTrack st req tid md a none none false]
           nextId := st.nextId + 1
           now := st.now + 1 }) ∧
      (assembleSingleTrack st req tid md a none none false).lyrics = none) := by
  constructor
  · intro env st c u hdup htok hlyr
    exact processOne_nullLyrics_eq env st c u hdup htok hlyr
  · intro env st req tid md a htid hdup hmd hpv hem htok hlres hins
    constructor
    · simp [analyzeSingle, htid, hdup, hmd, hpv, hem, htok, hlres, hins]
    · rfl

/-- Witness for the amended C4: the batch branch on a concrete null-lyrics
candidate, and the single-route branch on the concrete request. -/
theorem C4_null_lyrics_split_witness :
    getBySpotifyId emptyDB candNoLyrics.spotifyId = none ∧
    processOne envTok emptyDB candNoLyrics =
      (.failed candNoLyrics.name (artistNameOf candNoLyrics)
        "No lyrics found", emptyDB) ∧
    (analyzeSingle envTok emptyDB nullLyricsReq =
      (.created nullLyricsTrack,
       { tracks := emptyDB.tracks ++ [nullLyricsTrack]
         nextId := emptyDB.nextId + 1
         now := emptyDB.now + 1 }) ∧
     nullLyricsTrack.lyrics = none) :=
  ⟨rfl,
    C4_null_lyrics_split.1 envTok emptyDB candNoLyrics none rfl rfl rfl,
    C4_null_lyrics_split.2 envTok emptyDB nullLyricsReq "xyz" nullLyricsMeta
      rawJoy rfl rfl rfl rfl rfl rfl rfl rfl⟩

/-- Claim C2 counterexample: a parsed analysis object with the
out-of-enum emotion `ecstasy` is returned as-is by the response handling,
the pipeline accepts it, and the assembled track carries `ecstasy`. -/
theorem C2_counterexample_out_of_enum_accepted :
    analyzeLyricsResult (some rawOutOfEnum) = .ok rawOutOfEnum ∧
    rawOutOfEnum.emotion ∉ allowedEmotions ∧
    (processOne envTok emptyDB outOfEnumCand).1 =
      .success (assembleTrack emptyDB outOfEnumCand rawOutOfEnum "la la"
        (some "g")) ∧
    (assembleTrack emptyDB outOfEnumCand rawOutOfEnum "la la"
      (some "g")).emotion = "ecstasy" :=
  ⟨rfl, by decide, rfl, rfl⟩

/-- Claim C2 (amended): the analysis stage fails only when no JSON object
can be extracted and parsed from the response text; any successfully
parsed object is accepted without field validation, and whatever emotion
string it carries — in or out of the 8-label enum — flows unchanged into
the assembled, persisted track. -/
theorem C2_analysis_unvalidated (env : PipelineEnv) (st : DB) (c : Candidate)
    (a : RawAnalysis) (l : String) (u : Option String)
    (hdup : getBySpotifyId st c.spotifyId = none)
    (htok : env.geniusToken = true)
    (hlyr : c.lyricsOutcome = .ok (some l) u) (hl : l ≠ "")
    (hana : c.analysisResult = .ok a)
    (hins : c.insertResult = .ok ()) :
    analyzeLyricsResult (some a) = .ok a ∧
    analyzeLyricsResult none =
      .error "Failed to parse Gemini response as JSON" ∧
    processOne env st c =
      (.success (assembleTrack st c a l u),
       { tracks := st.tracks ++ [assembleTrack st c a l u]
         nextId := st.nextId + 1
         now := st.now + 1 }) ∧
    (assembleTrack st c a l u).emotion = a.emotion :=
  ⟨rfl, rfl,
    processOne_success_eq env st c a l u hdup htok hlyr hl hana hins, rfl⟩

/-- Witness for the amended C2 at a concrete in-pipeline run. -/
theorem C2_analysis_unvalidated_witness :
    getBySpotifyId emptyDB (okCand 0).spotifyId = none ∧
    (analyzeLyricsResult (some rawJoy) = .ok rawJoy ∧
     analyzeLyricsResult none =
       .error "Failed to parse Gemini response as JSON" ∧
     processOne envTok emptyDB (okCand 0) =
       (.success (assembleTrack emptyDB (okCand 0) rawJoy "la la" (some "g")),
        { tracks := emptyDB.tracks ++
            [assembleTrack emptyDB (okCand 0) rawJoy "la la" (some "g")]
          nextId := emptyDB.nextId + 1
          now := emptyDB.now + 1 }) ∧
     (assembleTrack emptyDB (okCand 0) rawJoy "la la" (some "g")).emotion =
       rawJoy.emotion) :=
  ⟨rfl,
    C2_analysis_unvalidated envTok emptyDB (okCand 0) rawJoy "la la"
      (some "g") rfl rfl rfl (by decide) rfl rfl⟩

end Crosstalk
